import Mathlib

/-!
Verification of the credential-lifecycle / resilient-call core of the
MCP tool-hub repository (a TypeScript service proxying the Notion API).

Shallow embedding conventions:
* Machine integers in the source are plain JS numbers used as naturals
  (statuses, delays, timestamps); they are modelled as `Nat`.
* `async` functions are modelled as pure functions; each network call the
  source makes is replaced by an oracle parameter (a function from the
  call's inputs to an outcome) and the sequence of effects is returned
  explicitly in a trace structure.
* JS `Map` objects are modelled as association lists with exact-key
  set/lookup/erase operations.
* `JSON.parse` / `JSON.stringify` are not modelled bit-exactly: response
  bodies flow through the embedding as opaque strings, and the
  parsed-or-raw distinction of `httpWithRetry` is kept as a constructor
  tag (`JsonOut.fromBody` / `JsonOut.netError`) since no verified
  property depends on the parse itself.
* ISO-8601 timestamp strings produced by `new Date().toISOString()` are
  modelled as `Nat` instants supplied by a clock argument `now`
  (lexicographic order on the ISO strings coincides with the numeric
  order on instants).
* JS truthiness of an optional string field (`x || y`, `if (x)`) is
  modelled by `truthyOpt`: present and non-empty.
-/

/-! ## Resilient call client: `src/utils/http.ts` -/

/-- A successful `fetch`: an HTTP response with its status, the parsed
`retry-after` header (seconds) if present, and the body text. -/
structure HttpResponse where
  status : Nat
  retryAfter : Option Nat
  body : String
deriving DecidableEq, Repr

/-- Outcome of one `fetch` call inside the retry loop: either a response
or a thrown network-level error (connection failure, timeout). -/
inductive FetchOutcome where
  | success (r : HttpResponse)
  | netError (e : String)
deriving DecidableEq, Repr

/-- The `json` field of a `httpWithRetry` result: a body carried through
opportunistic parsing (opaque here), or the synthetic
`\x7b error: String(lastErr) \x7d` payload of a network failure. -/
inductive JsonOut where
  | fromBody (text : String)
  | netError (e : String)
deriving DecidableEq, Repr

/-- The result record `\x7b ok, status, json \x7d` of `httpWithRetry`. -/
structure HttpResult where
  ok : Bool
  status : Nat
  json : JsonOut
deriving DecidableEq, Repr

/-- `res.ok` of the fetch API: status in the 2xx range. -/
def statusOk (status : Nat) : Bool :=
  decide (200 ≤ status) && decide (status < 300)

/-- The retryable statuses `[429, 500, 502, 503, 504]` of http.ts line 31. -/
def retryableStatuses : List Nat := [429, 500, 502, 503, 504]

/-- `[429, 500, 502, 503, 504].includes(res.status)` as a boolean test. -/
def isRetryableStatus (status : Nat) : Bool := retryableStatuses.contains status

/-- `RetryOptions` with the defaults of http.ts lines 18-20 applied. -/
structure RetryOptions where
  retries : Nat := 3
  baseDelayMs : Nat := 300
  maxDelayMs : Nat := 3000
deriving DecidableEq, Repr

/-- The computed (non-server-hinted) backoff delay of http.ts lines 33/41:
`Math.min(maxDelay, baseDelay * Math.pow(2, attempt) + Math.floor(Math.random()*100))`,
with the jitter draw supplied by the oracle `jitter`. -/
def computedDelay (baseDelay maxDelay : Nat) (jitter : Nat → Nat) (attempt : Nat) : Nat :=
  min maxDelay (baseDelay * 2 ^ attempt + jitter attempt)

/-- The result `httpWithRetry` builds from the outcome of its final
attempt: the last observed response (line 37) or the synthetic
network-error result `\x7b ok:false, status:0 \x7d` (line 45). -/
def resultOfOutcome : FetchOutcome → HttpResult
  | .success r => { ok := statusOk r.status, status := r.status, json := .fromBody r.body }
  | .netError e => { ok := false, status := 0, json := .netError e }

/-- Trace of one `httpWithRetry` call: its returned result, how many
fetch attempts were made, and the delays slept between attempts. -/
structure RetryTrace where
  result : HttpResult
  attempts : Nat
  delays : List Nat
deriving DecidableEq, Repr

/-- The loop body of `httpWithRetry` (http.ts lines 23-47), recursing on
`remaining = retries - attempt`. `fetchO attempt` is the outcome of the
`fetch` made on iteration `attempt`; `jitter attempt` is that
iteration's `Math.floor(Math.random()*100)` draw. A retryable status
with attempts remaining sleeps the server-hinted delay
(`parseInt(retry-after) * 1000`) or the computed delay, then continues;
otherwise the response is returned as is. A thrown fetch error with
attempts remaining sleeps the computed delay and continues; on the last
attempt it yields the synthetic network-error result. -/
def httpGo (fetchO : Nat → FetchOutcome) (jitter : Nat → Nat)
    (baseDelay maxDelay : Nat) : (attempt remaining : Nat) → RetryTrace
  | attempt, remaining =>
    match fetchO attempt with
    | .success r =>
      if isRetryableStatus r.status then
        match remaining with
        | rem + 1 =>
          let d := match r.retryAfter with
            | some ra => ra * 1000
            | none => computedDelay baseDelay maxDelay jitter attempt
          let t := httpGo fetchO jitter baseDelay maxDelay (attempt + 1) rem
          { result := t.result, attempts := t.attempts + 1, delays := d :: t.delays }
        | 0 => { result := resultOfOutcome (.success r), attempts := 1, delays := [] }
      else
        { result := resultOfOutcome (.success r), attempts := 1, delays := [] }
    | .netError e =>
      match remaining with
      | rem + 1 =>
        let d := computedDelay baseDelay maxDelay jitter attempt
        let t := httpGo fetchO jitter baseDelay maxDelay (attempt + 1) rem
        { result := t.result, attempts := t.attempts + 1, delays := d :: t.delays }
      | 0 => { result := resultOfOutcome (.netError e), attempts := 1, delays := [] }

/-- `httpWithRetry` (http.ts lines 11-49), abstracted over the fetch and
jitter oracles. The method/url/headers/body arguments only feed the
fetch calls, so they live inside `fetchO`. -/
def httpWithRetry (fetchO : Nat → FetchOutcome) (jitter : Nat → Nat)
    (opts : RetryOptions) : RetryTrace :=
  httpGo fetchO jitter opts.baseDelayMs opts.maxDelayMs 0 opts.retries

/-- An attempt outcome that the loop treats as retryable: a retryable
status or a network-level failure. -/
def retryableOutcome : FetchOutcome → Prop
  | .success r => isRetryableStatus r.status = true
  | .netError _ => True

instance : DecidablePred retryableOutcome := fun o => by
  cases o with
  | success r => exact inferInstanceAs (Decidable (isRetryableStatus r.status = true))
  | netError e => exact inferInstanceAs (Decidable True)

/-- An outcome with no server-specified wait hint (`retry-after` header). -/
def noServerHint : FetchOutcome → Prop
  | .success r => r.retryAfter = none
  | .netError _ => True

/-- A simulated upstream that answers attempt `i` with the `i`-th status
of `l` (and `dflt` past the end), never hinting a wait. -/
def statusSeq (l : List Nat) (dflt : Nat) : Nat → FetchOutcome := fun i =>
  .success { status := l.getD i dflt, retryAfter := none, body := "" }

theorem retryable_not_ok {o : FetchOutcome} (h : retryableOutcome o) :
    (resultOfOutcome o).ok = false := by
  cases o with
  | success r =>
    have h' : r.status = 429 ∨ r.status = 500 ∨ r.status = 502 ∨
        r.status = 503 ∨ r.status = 504 := by
      simpa [retryableOutcome, isRetryableStatus, retryableStatuses] using h
    rcases h' with h' | h' | h' | h' | h' <;> simp [resultOfOutcome, statusOk, h']
  | netError e => rfl

theorem httpGo_attempts_le (f : Nat → FetchOutcome) (j : Nat → Nat) (b m : Nat) :
    ∀ rem a, (httpGo f j b m a rem).attempts ≤ rem + 1 := by
  intro rem
  induction rem with
  | zero =>
    intro a
    unfold httpGo
    cases f a with
    | success r =>
      cases h : isRetryableStatus r.status <;> simp [h]
    | netError e => simp
  | succ n ih =>
    intro a
    unfold httpGo
    cases f a with
    | success r =>
      cases h : isRetryableStatus r.status <;> simp [h]
      exact ih (a + 1)
    | netError e =>
      simp
      exact ih (a + 1)

theorem httpGo_all_retryable (f : Nat → FetchOutcome) (j : Nat → Nat) (b m : Nat)
    (hf : ∀ i, retryableOutcome (f i)) :
    ∀ rem a, (httpGo f j b m a rem).attempts = rem + 1 ∧
      (httpGo f j b m a rem).result = resultOfOutcome (f (a + rem)) ∧
      (httpGo f j b m a rem).delays.length = rem := by
  intro rem
  induction rem with
  | zero =>
    intro a
    unfold httpGo
    cases hfa : f a with
    | success r =>
      have := hf a
      rw [hfa] at this
      simp only [retryableOutcome] at this
      simp [this, hfa]
    | netError e => simp [hfa]
  | succ n ih =>
    intro a
    unfold httpGo
    cases hfa : f a with
    | success r =>
      have := hf a
      rw [hfa] at this
      simp only [retryableOutcome] at this
      have harith : a + 1 + n = a + (n + 1) := by omega
      simp [this, (ih (a + 1)).1, (ih (a + 1)).2.1, (ih (a + 1)).2.2, harith]
    | netError e =>
      have harith : a + 1 + n = a + (n + 1) := by omega
      simp [(ih (a + 1)).1, (ih (a + 1)).2.1, (ih (a + 1)).2.2, harith]

/-- C3: `httpWithRetry` never throws for ordinary HTTP or network
failures (the embedding is a total function into a result trace): it
makes at most `retries + 1` attempts; when every attempt fails
retryably, all `retries + 1` attempts occur and the returned value is
the result built from the last observed outcome (the last response, or
the synthetic `ok:false, status:0` network-error result), which is not
`ok`; in particular with `retries = 2` and an always-failing upstream
exactly 3 attempts occur and the final result has `ok = false`. -/
theorem httpWithRetry_no_throw_exhaustion :
    (∀ (f : Nat → FetchOutcome) (j : Nat → Nat) (opts : RetryOptions),
      (httpWithRetry f j opts).attempts ≤ opts.retries + 1) ∧
    (∀ (f : Nat → FetchOutcome) (j : Nat → Nat) (opts : RetryOptions),
      (∀ i, retryableOutcome (f i)) →
      (httpWithRetry f j opts).attempts = opts.retries + 1 ∧
      (httpWithRetry f j opts).result = resultOfOutcome (f opts.retries) ∧
      (httpWithRetry f j opts).result.ok = false) ∧
    (∀ (f : Nat → FetchOutcome) (j : Nat → Nat),
      (∀ i, retryableOutcome (f i)) →
      (httpWithRetry f j { retries := 2 }).attempts = 3 ∧
      (httpWithRetry f j { retries := 2 }).result.ok = false) := by
  refine ⟨fun f j opts => httpGo_attempts_le f j _ _ opts.retries 0, ?_, ?_⟩
  · intro f j opts hf
    obtain ⟨h1, h2, _⟩ := httpGo_all_retryable f j opts.baseDelayMs opts.maxDelayMs hf opts.retries 0
    rw [Nat.zero_add] at h2
    refine ⟨h1, h2, ?_⟩
    show (httpGo f j opts.baseDelayMs opts.maxDelayMs 0 opts.retries).result.ok = false
    rw [h2]
    exact retryable_not_ok (hf opts.retries)
  · intro f j hf
    obtain ⟨h1, h2, _⟩ := httpGo_all_retryable f j 300 3000 hf 2 0
    rw [Nat.zero_add] at h2
    refine ⟨h1, ?_⟩
    show (httpGo f j 300 3000 0 2).result.ok = false
    rw [h2]
    exact retryable_not_ok (hf 2)

/-- Witness for C3 at a concrete always-failing upstream (a network error
on every attempt) with `retries = 2`: exactly 3 attempts, `ok = false`. -/
theorem httpWithRetry_no_throw_exhaustion_witness :
    (httpWithRetry (fun _ => .netError "connection reset") (fun _ => 7)
        { retries := 2 }).attempts = 3 ∧
    (httpWithRetry (fun _ => .netError "connection reset") (fun _ => 7)
        { retries := 2 }).result.ok = false :=
  httpWithRetry_no_throw_exhaustion.2.2 _ _ (fun _ => trivial)

/-- C4: the loop retries exactly on a retryable status `∈ {429, 500,
502, 503, 504}` or a network failure: (1) any response with a
non-retryable status ends the call at that attempt, returning it as is —
so any non-2xx status outside the set comes back immediately with
`ok = false`; (2) a retryable outcome with attempts remaining makes at
least one further attempt; (3) concretely, a simulated upstream
answering `[503, 503, 200]` with `retries = 3` yields `ok = true`,
status 200, after exactly 3 attempts of which 2 were followed by a
backoff delay. -/
theorem httpWithRetry_retry_conditions :
    (∀ (f : Nat → FetchOutcome) (j : Nat → Nat) (b m a rem : Nat) (r : HttpResponse),
      f a = .success r → isRetryableStatus r.status = false →
      httpGo f j b m a rem =
        { result := { ok := statusOk r.status, status := r.status, json := .fromBody r.body },
          attempts := 1, delays := [] }) ∧
    (∀ (f : Nat → FetchOutcome) (j : Nat → Nat) (b m a rem : Nat),
      retryableOutcome (f a) →
      (httpGo f j b m a (rem + 1)).attempts = (httpGo f j b m (a + 1) rem).attempts + 1) ∧
    (∀ j : Nat → Nat,
      (httpWithRetry (statusSeq [503, 503, 200] 200) j { retries := 3 }).result.ok = true ∧
      (httpWithRetry (statusSeq [503, 503, 200] 200) j { retries := 3 }).result.status = 200 ∧
      (httpWithRetry (statusSeq [503, 503, 200] 200) j { retries := 3 }).attempts = 3 ∧
      (httpWithRetry (statusSeq [503, 503, 200] 200) j { retries := 3 }).delays.length = 2) := by
  refine ⟨?_, ?_, ?_⟩
  · intro f j b m a rem r hfa hns
    unfold httpGo
    rw [hfa]
    simp [hns, resultOfOutcome]
  · intro f j b m a rem hret
    conv_lhs => rw [httpGo]
    cases hfa : f a with
    | success r =>
      rw [hfa] at hret
      simp only [retryableOutcome] at hret
      simp [hret]
    | netError e => simp
  · intro j
    have h503 : isRetryableStatus 503 = true := rfl
    have h200 : isRetryableStatus 200 = false := rfl
    refine ⟨?_, ?_, ?_, ?_⟩ <;>
      simp [httpWithRetry, httpGo, statusSeq, resultOfOutcome, statusOk, h503, h200,
        List.getD_cons_zero, List.getD_cons_succ]

/-- Witness for C4: part (1) applied at a concrete non-retryable 404
response (returned immediately, `ok = false`), and part (3) applied at a
concrete jitter draw. -/
theorem httpWithRetry_retry_conditions_witness :
    httpGo (fun _ => .success { status := 404, retryAfter := none, body := "nope" })
        (fun _ => 7) 300 3000 0 3 =
      { result := { ok := statusOk 404, status := 404, json := .fromBody "nope" },
        attempts := 1, delays := [] } ∧
    (httpWithRetry (statusSeq [503, 503, 200] 200) (fun _ => 7)
        { retries := 3 }).result.ok = true :=
  ⟨httpWithRetry_retry_conditions.1 _ _ 300 3000 0 3 _ rfl (by decide),
   (httpWithRetry_retry_conditions.2.2 (fun _ => 7)).1⟩

theorem httpGo_delays_range (f : Nat → FetchOutcome) (j : Nat → Nat) (b m : Nat)
    (hh : ∀ i, noServerHint (f i)) :
    ∀ rem a, ∃ k, (httpGo f j b m a rem).delays =
      (List.range' a k).map (computedDelay b m j) := by
  intro rem
  induction rem with
  | zero =>
    intro a
    refine ⟨0, ?_⟩
    unfold httpGo
    cases f a with
    | success r => by_cases h : r.status ∈ retryableStatuses <;> simp [h]
    | netError e => simp
  | succ n ih =>
    intro a
    unfold httpGo
    cases hfa : f a with
    | success r =>
      cases h : isRetryableStatus r.status with
      | false => exact ⟨0, by simp [h]⟩
      | true =>
        obtain ⟨k, hk⟩ := ih (a + 1)
        refine ⟨k + 1, ?_⟩
        have hra : r.retryAfter = none := by
          have := hh a
          rw [hfa] at this
          exact this
        simp [h, hra, hk, List.range'_succ]
    | netError e =>
      obtain ⟨k, hk⟩ := ih (a + 1)
      refine ⟨k + 1, ?_⟩
      simp [hk, List.range'_succ]

theorem chain_le_map_range (g : Nat → Nat) (hg : ∀ i, g i ≤ g (i + 1)) :
    ∀ k a, List.Chain' (fun x y => x ≤ y) ((List.range' a k).map g) := by
  intro k
  induction k with
  | zero => intro a; simp
  | succ n ih =>
    intro a
    rw [List.range'_succ]
    cases n with
    | zero => simp
    | succ p =>
      rw [List.range'_succ, List.map_cons, List.map_cons, List.chain'_cons]
      have := ih (a + 1)
      rw [List.range'_succ, List.map_cons] at this
      exact ⟨hg a, this⟩

theorem computedDelay_mono (b m : Nat) (j : Nat → Nat) (hb : 100 ≤ b)
    (hj : ∀ i, j i < 100) (i : Nat) :
    computedDelay b m j i ≤ computedDelay b m j (i + 1) := by
  unfold computedDelay
  have h2 : b * 2 ^ (i + 1) = 2 * (b * 2 ^ i) := by ring
  have hbp : b ≤ b * 2 ^ i := by
    calc b = b * 1 := (Nat.mul_one b).symm
    _ ≤ b * 2 ^ i := Nat.mul_le_mul_left b Nat.one_le_two_pow
  have hji := hj i
  rw [h2]
  omega

/-- C5 counterexample: with `baseDelay = 50`, `maxDelay = 3000`, jitter
draws 99 then 0 (both within the `Math.random()*100` bound) and no
server wait hint, an always-503 upstream with `retries = 2` produces the
successive delays `[149, 100]`, which are not non-decreasing — so the
claim's monotonicity fails for arbitrary `baseDelay`. -/
theorem httpWithRetry_backoff_monotone_cex :
    (httpWithRetry (statusSeq [] 503) (fun i => if i = 0 then 99 else 0)
        { retries := 2, baseDelayMs := 50, maxDelayMs := 3000 }).delays = [149, 100] ∧
    ¬ List.Chain' (fun x y => x ≤ y)
      (httpWithRetry (statusSeq [] 503) (fun i => if i = 0 then 99 else 0)
        { retries := 2, baseDelayMs := 50, maxDelayMs := 3000 }).delays := by
  have hd : (httpWithRetry (statusSeq [] 503) (fun i => if i = 0 then 99 else 0)
      { retries := 2, baseDelayMs := 50, maxDelayMs := 3000 }).delays = [149, 100] := by
    decide
  refine ⟨hd, ?_⟩
  rw [hd]
  simp [List.chain'_cons]

/-- C5 (amended): absent a server wait hint, every computed backoff
delay of one `httpWithRetry` call is bounded by `maxDelay`, and —
provided `baseDelay` is at least the 100 ms jitter bound (the shipped
default is 300) — the successive delays are non-decreasing. (With
`baseDelay < 100` the random jitter can make a later delay smaller, as
the counterexample shows.) -/
theorem httpWithRetry_backoff_bounded_monotone
    (f : Nat → FetchOutcome) (j : Nat → Nat) (retries b m : Nat)
    (hj : ∀ i, j i < 100) (hh : ∀ i, noServerHint (f i)) :
    (∀ d ∈ (httpWithRetry f j
        { retries := retries, baseDelayMs := b, maxDelayMs := m }).delays,
      d ≤ m) ∧
    (100 ≤ b →
      List.Chain' (fun x y => x ≤ y)
        (httpWithRetry f j
          { retries := retries, baseDelayMs := b, maxDelayMs := m }).delays) := by
  obtain ⟨k, hk⟩ := httpGo_delays_range f j b m hh retries 0
  have e : (httpWithRetry f j
      { retries := retries, baseDelayMs := b, maxDelayMs := m }).delays =
      (httpGo f j b m 0 retries).delays := rfl
  constructor
  · intro d hd
    rw [e, hk] at hd
    obtain ⟨i, _, rfl⟩ := List.mem_map.mp hd
    exact Nat.min_le_left _ _
  · intro hb
    rw [e, hk]
    exact chain_le_map_range _ (computedDelay_mono b m j hb hj) k 0

/-- Witness for the amended C5 at the shipped defaults (`baseDelay 300`,
`maxDelay 3000`), constant jitter 50, an always-503 upstream. -/
theorem httpWithRetry_backoff_bounded_monotone_witness :
    (∀ d ∈ (httpWithRetry (statusSeq [] 503) (fun _ => 50)
        { retries := 2, baseDelayMs := 300, maxDelayMs := 3000 }).delays, d ≤ 3000) ∧
    (100 ≤ 300 →
      List.Chain' (fun x y => x ≤ y)
        (httpWithRetry (statusSeq [] 503) (fun _ => 50)
          { retries := 2, baseDelayMs := 300, maxDelayMs := 3000 }).delays) :=
  httpWithRetry_backoff_bounded_monotone _ _ 2 300 3000
    (fun _ => by decide) (fun _ => rfl)

/-! ## Credential store: `src/storage/tokenStore.ts` (`InMemoryTokenStore`) -/

/-- Exact-key association-list operations modelling a JS `Map` with
string keys (keys are unique in any map built from these operations). -/
def lookupKey {α : Type} : List (String × α) → String → Option α
  | [], _ => none
  | (k, v) :: rest, key => if k = key then some v else lookupKey rest key

def setKey {α : Type} : List (String × α) → String → α → List (String × α)
  | [], key, v => [(key, v)]
  | (k, w) :: rest, key, v =>
    if k = key then (key, v) :: rest else (k, w) :: setKey rest key v

def eraseKey {α : Type} : List (String × α) → String → List (String × α)
  | [], _ => []
  | (k, v) :: rest, key => if k = key then rest else (k, v) :: eraseKey rest key

theorem lookupKey_setKey_self {α : Type} (m : List (String × α)) (key : String) (v : α) :
    lookupKey (setKey m key v) key = some v := by
  induction m with
  | nil => simp [setKey, lookupKey]
  | cons hd tl ih =>
    obtain ⟨k, w⟩ := hd
    by_cases h : k = key <;> simp [setKey, lookupKey, h, ih]

theorem lookupKey_setKey_other {α : Type} (m : List (String × α)) (key key' : String)
    (v : α) (hne : key ≠ key') :
    lookupKey (setKey m key v) key' = lookupKey m key' := by
  induction m with
  | nil => simp [setKey, lookupKey, hne]
  | cons hd tl ih =>
    obtain ⟨k, w⟩ := hd
    by_cases h : k = key
    · subst h
      simp [setKey, lookupKey, hne]
    · simp [setKey, lookupKey, h, ih]

/-- The token-endpoint JSON payloads this repository stores: the shape
shared by the OAuth callback's exchange response and `refresh`'s
response (part_000 lines 212-223 and 242-253). `TokenRecord.raw` (typed
`any` in the source) only ever holds such a payload here. The source's
`Array.isArray(scope) ? scope.join(" ") : ...` branch is collapsed: a
scope is carried as its final string form. -/
structure OAuthTokenJson where
  access_token : String
  refresh_token : Option String
  scope : Option String
  workspace_id : Option String
  workspace_name : Option String
  bot_id : Option String
deriving DecidableEq, Repr

/-- `TokenRecord` of tokenStore.ts lines 6-19 (`provider` is the literal
type `'notion'`, kept as a string). -/
structure TokenRecord where
  provider : String
  subject : String
  access_token : String
  refresh_token : Option String
  expires_at : Option String
  scope : Option String
  workspace_id : Option String
  workspace_name : Option String
  bot_id : Option String
  raw : Option OAuthTokenJson
  created_at : Option Nat
  updated_at : Option Nat
deriving DecidableEq, Repr

/-- The state of an `InMemoryTokenStore`: its private `map`. -/
abbrev TokenMap : Type := List (String × TokenRecord)

/-- The map key `` `$\x7brecord.provider\x7d:$\x7brecord.subject\x7d` `` of
tokenStore.ts line 30. -/
def tokenKey (record : TokenRecord) : String :=
  record.provider ++ ":" ++ record.subject

/-- `InMemoryTokenStore.upsertToken` (tokenStore.ts lines 29-32): stores
the given record under its key with `updated_at := now` and
`created_at` taken from the existing entry when it has one, else `now`. -/
def upsertToken (m : TokenMap) (record : TokenRecord) (now : Nat) : TokenMap :=
  setKey m (tokenKey record)
    { record with
      updated_at := some now,
      created_at := some (((lookupKey m (tokenKey record)).bind TokenRecord.created_at).getD now) }

/-- `InMemoryTokenStore.getToken` (tokenStore.ts lines 33-35); the
source defaults `subject` to `"default"`. -/
def getToken (m : TokenMap) (provider : String) (subject : String := "default") :
    Option TokenRecord :=
  lookupKey m (provider ++ ":" ++ subject)

/-- The C6 round-trip property for one `upsertToken` against a store
state: a subsequent `getToken` with the same (provider, subject) key
returns the written record up to the store-managed timestamps:
`updated_at` becomes `now` (≥ any previous value under a monotone
clock) and `created_at` keeps the previously stored value, or is
initialised to `now` on the first write. -/
def upsertRoundtrip (m : TokenMap) (r : TokenRecord) (now : Nat) : Prop :=
  ∃ r', getToken (upsertToken m r now) r.provider r.subject = some r' ∧
    r'.provider = r.provider ∧ r'.subject = r.subject ∧
    r'.access_token = r.access_token ∧ r'.refresh_token = r.refresh_token ∧
    r'.expires_at = r.expires_at ∧ r'.scope = r.scope ∧
    r'.workspace_id = r.workspace_id ∧ r'.workspace_name = r.workspace_name ∧
    r'.bot_id = r.bot_id ∧ r'.raw = r.raw ∧
    r'.updated_at = some now ∧
    (∀ p u u', lookupKey m (tokenKey r) = some p → p.updated_at = some u →
      r'.updated_at = some u' → u ≤ u') ∧
    (∀ p c, lookupKey m (tokenKey r) = some p → p.created_at = some c →
      r'.created_at = some c) ∧
    (lookupKey m (tokenKey r) = none → r'.created_at = some now)

/-- C6: for every `TokenRecord` written via `upsertToken` at a clock
instant `now` not earlier than the stored entry's `updated_at`, a
subsequent `getToken` with the same (provider, subject) key returns a
record equal to the written one on all fields except `updated_at`
(which is `≥` its previous value) and `created_at` (which keeps the
value set at the first write for that key). -/
theorem upsertToken_getToken_roundtrip (m : TokenMap) (r : TokenRecord) (now : Nat)
    (hmono : ∀ p u, lookupKey m (tokenKey r) = some p → p.updated_at = some u → u ≤ now) :
    upsertRoundtrip m r now := by
  refine ⟨{ r with
      updated_at := some now,
      created_at := some (((lookupKey m (tokenKey r)).bind TokenRecord.created_at).getD now) },
    ?_, rfl, rfl, rfl, rfl, rfl, rfl, rfl, rfl, rfl, rfl, rfl, ?_, ?_, ?_⟩
  · exact lookupKey_setKey_self m (tokenKey r) _
  · intro p u u' hp hu hu'
    have h2 : some now = some u' := hu'
    cases h2
    exact hmono p u hp hu
  · intro p c hp hc
    show some (((lookupKey m (tokenKey r)).bind TokenRecord.created_at).getD now) = some c
    rw [hp]
    simp [hc]
  · intro hnone
    show some (((lookupKey m (tokenKey r)).bind TokenRecord.created_at).getD now) = some now
    rw [hnone]
    rfl

/-- Witness for C6: a store holding a record for key `notion:ws1`
(created at instant 1, updated at instant 5) receives a fresh record at
instant 10. -/
theorem upsertToken_getToken_roundtrip_witness :
    upsertRoundtrip
      [("notion:ws1",
        { provider := "notion", subject := "ws1", access_token := "old",
          refresh_token := some "r0", expires_at := none, scope := none,
          workspace_id := some "ws1", workspace_name := none, bot_id := none,
          raw := none, created_at := some 1, updated_at := some 5 })]
      { provider := "notion", subject := "ws1", access_token := "new",
        refresh_token := some "r1", expires_at := none, scope := none,
        workspace_id := some "ws1", workspace_name := none, bot_id := none,
        raw := none, created_at := none, updated_at := none }
      10 :=
  upsertToken_getToken_roundtrip _ _ 10 (fun p u hp hu => by
    have hp' := Option.some.inj hp
    subst hp'
    have hu' := Option.some.inj hu
    omega)

/-! ## Tool registry wrapper: `src/core/provider.ts` and
`src/storage/usageStore.ts` -/

/-- JS truthiness of an optional string (`x || y`, `if (x)`): present
and non-empty. -/
def truthyOpt : Option String → Bool
  | some s => s ≠ ""
  | none => false

/-- A thrown JS `Error`. `String(e)` for an `Error` renders as
`"Error: " + message`. -/
structure JsError where
  message : String
deriving DecidableEq, Repr

/-- `e?.message || String(e)` of provider.ts line 47 for an `Error`
object: the message, falling back to the `String(e)` rendering when the
message is falsy (empty). -/
def jsErrorText (e : JsError) : String :=
  if e.message = "" then "Error: " ++ e.message else e.message

/-- `UsageRecord` of usageStore.ts lines 106-113. -/
structure UsageRecord where
  provider : String
  tool_name : String
  subject : Option String
  success : Bool
  latency_ms : Option Nat
  error_message : Option String
deriving DecidableEq, Repr

/-- A tool descriptor (`ToolSpec` of provider.ts lines 6-11), with its
async handler modelled as a pure function from validated arguments to
an outcome: a result or a thrown error. The title/description metadata
and the zod input schema do not affect the wrapper's behaviour. -/
structure ToolSpec (α β : Type) where
  name : String
  title : String
  description : String
  handler : α → Except JsError β

/-- `toolFullName` of provider.ts line 20:
`` `$\x7bthis.name\x7d.$\x7bt.name\x7d` ``. -/
def toolFullName (providerName toolName : String) : String :=
  providerName ++ "." ++ toolName

/-- The instrumentation wrapper `registerAll` installs around each
handler (provider.ts lines 40-50): invoke the handler, log a
`UsageRecord` (provider name, bare tool name, latency, and on failure
the error text), then return the result or re-raise the error. The
measured latency `Date.now() - start` is supplied by `latency`. The
returned pair is (the record passed to `usage.log`, the outcome
returned or re-thrown to the transport layer). -/
def wrappedCall {α β : Type} (providerName : String) (t : ToolSpec α β)
    (args : α) (latency : Nat) : UsageRecord × Except JsError β :=
  match t.handler args with
  | .ok out =>
    ({ provider := providerName, tool_name := t.name, subject := none,
       success := true, latency_ms := some latency, error_message := none },
     .ok out)
  | .error e =>
    ({ provider := providerName, tool_name := t.name, subject := none,
       success := false, latency_ms := some latency,
       error_message := some (jsErrorText e) },
     .error e)

/-- C8: for every registered tool, the wrapper logs a success record
with the measured latency and returns the handler's result unchanged
when the handler succeeds; when the handler throws it logs a failure
record with the latency and the error text and re-raises the original
error object unmodified. -/
theorem registerAll_wrapper_logs_and_propagates {α β : Type}
    (providerName : String) (t : ToolSpec α β) (args : α) (latency : Nat) :
    (∀ out, t.handler args = .ok out →
      wrappedCall providerName t args latency =
        ({ provider := providerName, tool_name := t.name, subject := none,
           success := true, latency_ms := some latency, error_message := none },
         .ok out)) ∧
    (∀ e, t.handler args = .error e →
      wrappedCall providerName t args latency =
        ({ provider := providerName, tool_name := t.name, subject := none,
           success := false, latency_ms := some latency,
           error_message := some (jsErrorText e) },
         .error e)) := by
  constructor
  · intro out hok
    simp [wrappedCall, hok]
  · intro e herr
    simp [wrappedCall, herr]

/-- Witness for C8 at one succeeding and one throwing concrete tool. -/
theorem registerAll_wrapper_logs_and_propagates_witness :
    wrappedCall "notion"
        { name := "getSelf", title := "t", description := "d",
          handler := fun (_ : Unit) => (.ok "me" : Except JsError String) } () 12 =
      ({ provider := "notion", tool_name := "getSelf", subject := none,
         success := true, latency_ms := some 12, error_message := none },
       .ok "me") ∧
    wrappedCall "notion"
        { name := "search", title := "t", description := "d",
          handler := fun (_ : Unit) =>
            (.error { message := "boom" } : Except JsError String) } () 34 =
      ({ provider := "notion", tool_name := "search", subject := none,
         success := false, latency_ms := some 34,
         error_message := some (jsErrorText { message := "boom" }) },
       .error { message := "boom" }) :=
  ⟨(registerAll_wrapper_logs_and_propagates "notion" _ () 12).1 "me" rfl,
   (registerAll_wrapper_logs_and_propagates "notion" _ () 34).2 { message := "boom" } rfl⟩

/-- C10: every `UsageRecord` the wrapper writes carries the provider
name and the tool's bare (unprefixed) name — even though the transport
registration uses the prefixed `provider.tool` name — and its optional
`subject` field is never populated, whatever tenant the invocation
targeted. -/
theorem registerAll_usage_record_fields {α β : Type}
    (providerName : String) (t : ToolSpec α β) (args : α) (latency : Nat) :
    (wrappedCall providerName t args latency).1.provider = providerName ∧
    (wrappedCall providerName t args latency).1.tool_name = t.name ∧
    (wrappedCall providerName t args latency).1.subject = none ∧
    toolFullName providerName t.name = providerName ++ "." ++ t.name := by
  unfold wrappedCall toolFullName
  cases t.handler args <;> simp

/-! ## Notion provider: `src/unnamed/part_000` (`NotionProvider`) -/

/-- `NotionConfig` (part_000 lines 11-17); the optional fields carry
JS-truthiness semantics via `truthyOpt`. -/
structure NotionConfig where
  clientId : String
  clientSecret : String
  redirectUri : String
  staticToken : Option String
  usePkce : Bool
deriving DecidableEq, Repr

/-- `subject || "default"` (part_000 line 236). -/
def subjectOrDefault : Option String → String
  | some v => if v = "" then "default" else v
  | none => "default"

/-- `NotionProvider.getAccessToken` (part_000 lines 234-240): a
configured (truthy) static token is returned with a `null` record,
without touching the store; otherwise the store is consulted for the
subject, absence being an error. The thrown error message names the
subject (quote characters around it are elided in the embedding). -/
def getAccessToken (cfg : NotionConfig) (store : TokenMap) (subject : Option String) :
    Except JsError (String × Option TokenRecord) :=
  if truthyOpt cfg.staticToken then .ok (cfg.staticToken.getD "", none)
  else
    let s := subjectOrDefault subject
    match getToken store "notion" s with
    | none => .error { message :=
        "No Notion token for subject " ++ s ++
        ". Visit /auth/notion or set NOTION_STATIC_TOKEN." }
    | some found => .ok (found.access_token, some found)

/-- The `\x7b ok, status, json \x7d` a token-endpoint `httpWithRetry`
call settles to, with `json` as the parsed token payload (meaningful
when `ok`). The call itself (its retries, headers, PKCE verifier or
Basic authentication in the request body) is abstracted into this
observed result. -/
structure ExchangeResult where
  ok : Bool
  status : Nat
  json : OAuthTokenJson
deriving DecidableEq, Repr

/-- `NotionProvider.refresh` (part_000 lines 257-269): returns the
token-endpoint JSON on success and throws on a non-ok exchange (the
`JSON.stringify(json)` tail of the source message is elided in the
embedding). -/
def refresh (exchange : ExchangeResult) : Except JsError OAuthTokenJson :=
  if exchange.ok then .ok exchange.json
  else .error { message :=
    "Notion refresh failed (" ++ toString exchange.status ++ ")" }

/-- `NotionProvider.upsertFromRefresh` (part_000 lines 242-255): merges
the refresh response over the old record — `??` (nullish) for
refresh/workspace/bot fields, JS `||` (truthiness) for scope — and
upserts the result. -/
def upsertFromRefresh (store : TokenMap) (old : TokenRecord)
    (refreshed : OAuthTokenJson) (now : Nat) : TokenMap :=
  upsertToken store
    { provider := "notion", subject := old.subject,
      access_token := refreshed.access_token,
      refresh_token := refreshed.refresh_token.or old.refresh_token,
      expires_at := none,
      scope := if truthyOpt refreshed.scope then refreshed.scope
        else if truthyOpt old.scope then old.scope else none,
      workspace_id := refreshed.workspace_id.or old.workspace_id,
      workspace_name := refreshed.workspace_name.or old.workspace_name,
      bot_id := refreshed.bot_id.or old.bot_id,
      raw := some refreshed,
      created_at := none, updated_at := none } now

/-- The settled `\x7b ok, status, json \x7d` of one `notionFetch` call
(part_000 lines 23-30), with `json` kept as the serialized body string
used in error messages and success payloads. -/
structure UpstreamResult where
  ok : Bool
  status : Nat
  json : String
deriving DecidableEq, Repr

/-- Observable effects of one `getSelf` tool invocation: its outcome
(the serialized body on success, the thrown error otherwise), how many
upstream `notionFetch` calls and `refresh` calls were made, how many
store writes happened, and the final store. -/
structure HandlerTrace where
  output : Except JsError String
  upstreamCalls : Nat
  refreshCalls : Nat
  persisted : Nat
  store : TokenMap

/-- The non-refresh tail of the `getSelf` handler: throw on a failed
response, else return the body (part_000 lines 57-58). -/
def getSelfFinish (store : TokenMap) (res : UpstreamResult) : HandlerTrace :=
  if res.ok then
    { output := .ok res.json, upstreamCalls := 1, refreshCalls := 0,
      persisted := 0, store := store }
  else
    { output := .error { message := "getSelf failed: " ++ res.json },
      upstreamCalls := 1, refreshCalls := 0, persisted := 0, store := store }

/-- The `getSelf` tool handler (part_000 lines 49-59): resolve the
credential, call the upstream once; if that call fails with status 401
and the stored record has a (truthy) refresh token, refresh once,
persist the merged record, and retry once with the new access token;
any remaining failure is thrown. `upstream` maps the bearer token used
to the settled result of `notionFetch(token, "users/me")`;
`refreshExchange` is the settled token-endpoint exchange of the (at
most one) `refresh` call. -/
def getSelfHandler (cfg : NotionConfig) (store : TokenMap) (subject : Option String)
    (upstream : String → UpstreamResult) (refreshExchange : ExchangeResult)
    (now : Nat) : HandlerTrace :=
  match getAccessToken cfg store subject with
  | .error e =>
    { output := .error e, upstreamCalls := 0, refreshCalls := 0,
      persisted := 0, store := store }
  | .ok (token, found) =>
    let res := upstream token
    match found with
    | some old =>
      if !res.ok && res.status == 401 && truthyOpt old.refresh_token then
        match refresh refreshExchange with
        | .error e =>
          { output := .error e, upstreamCalls := 1, refreshCalls := 1,
            persisted := 0, store := store }
        | .ok r =>
          let store' := upsertFromRefresh store old r now
          let res2 := upstream r.access_token
          if res2.ok then
            { output := .ok res2.json, upstreamCalls := 2, refreshCalls := 1,
              persisted := 1, store := store' }
          else
            { output := .error { message := "getSelf failed: " ++ res2.json },
              upstreamCalls := 2, refreshCalls := 1, persisted := 1, store := store' }
      else getSelfFinish store res
    | none => getSelfFinish store res

theorem getToken_upsertFromRefresh (store : TokenMap) (old : TokenRecord)
    (refreshed : OAuthTokenJson) (now : Nat) :
    ∃ merged, getToken (upsertFromRefresh store old refreshed now)
        "notion" old.subject = some merged ∧
      merged.access_token = refreshed.access_token ∧
      merged.refresh_token = refreshed.refresh_token.or old.refresh_token := by
  unfold upsertFromRefresh upsertToken getToken
  exact ⟨_, lookupKey_setKey_self _ _ _, rfl, rfl⟩

/-- The C1 property of one `getSelf` invocation whose first upstream
call was rejected with 401 while a refresh token was on record and
whose refresh exchange succeeded but whose retried call failed:
exactly one refresh, exactly two upstream calls (the original and one
retry), exactly one persist — the merged record is then readable from
the store — and the retried call's failure surfaced as the thrown
error. -/
def singleRefreshProp (cfg : NotionConfig) (store : TokenMap) (subject : Option String)
    (upstream : String → UpstreamResult) (exch : ExchangeResult) (now : Nat)
    (old : TokenRecord) : Prop :=
  (getSelfHandler cfg store subject upstream exch now).refreshCalls = 1 ∧
  (getSelfHandler cfg store subject upstream exch now).upstreamCalls = 2 ∧
  (getSelfHandler cfg store subject upstream exch now).persisted = 1 ∧
  (getSelfHandler cfg store subject upstream exch now).store =
    upsertFromRefresh store old exch.json now ∧
  (∃ merged, getToken (getSelfHandler cfg store subject upstream exch now).store
      "notion" old.subject = some merged ∧
    merged.access_token = exch.json.access_token ∧
    merged.refresh_token = exch.json.refresh_token.or old.refresh_token) ∧
  (getSelfHandler cfg store subject upstream exch now).output =
    .error { message := "getSelf failed: " ++ (upstream exch.json.access_token).json }

/-- C1: a tool invocation (modelled on `getSelf`) whose first upstream
call is rejected with 401 and whose stored record has a truthy refresh
token performs exactly one refresh and one retry; the merged record is
persisted; and when the retried call also fails the error is surfaced
with no further refresh attempt (`refreshCalls = 1`,
`upstreamCalls = 2`). -/
theorem getSelf_single_refresh_then_retry
    (cfg : NotionConfig) (store : TokenMap) (subject : Option String)
    (upstream : String → UpstreamResult) (exch : ExchangeResult) (now : Nat)
    (old : TokenRecord)
    (hstatic : truthyOpt cfg.staticToken = false)
    (hget : getToken store "notion" (subjectOrDefault subject) = some old)
    (hrt : truthyOpt old.refresh_token = true)
    (hfail : (upstream old.access_token).ok = false)
    (h401 : (upstream old.access_token).status = 401)
    (hexch : exch.ok = true)
    (hretry : (upstream exch.json.access_token).ok = false) :
    singleRefreshProp cfg store subject upstream exch now old := by
  have hh : getSelfHandler cfg store subject upstream exch now =
      { output := .error { message :=
          "getSelf failed: " ++ (upstream exch.json.access_token).json },
        upstreamCalls := 2, refreshCalls := 1, persisted := 1,
        store := upsertFromRefresh store old exch.json now } := by
    unfold getSelfHandler getAccessToken
    simp [hstatic, hget, hfail, h401, hrt, refresh, hexch, hretry]
  unfold singleRefreshProp
  rw [hh]
  exact ⟨rfl, rfl, rfl, rfl, getToken_upsertFromRefresh store old exch.json now, rfl⟩

/-- Witness for C1: stored token `a0` is rejected with 401, the refresh
issues `a1`, and the retried call fails with 403. -/
theorem getSelf_single_refresh_then_retry_witness :
    singleRefreshProp
      { clientId := "id", clientSecret := "sec", redirectUri := "uri",
        staticToken := none, usePkce := false }
      [("notion:default",
        { provider := "notion", subject := "default", access_token := "a0",
          refresh_token := some "rt", expires_at := none, scope := none,
          workspace_id := none, workspace_name := none, bot_id := none,
          raw := none, created_at := some 1, updated_at := some 1 })]
      none
      (fun tok => if tok = "a0"
        then { ok := false, status := 401, json := "unauthorized" }
        else { ok := false, status := 403, json := "denied" })
      { ok := true, status := 200,
        json := { access_token := "a1", refresh_token := none, scope := none,
                  workspace_id := none, workspace_name := none, bot_id := none } }
      7
      { provider := "notion", subject := "default", access_token := "a0",
        refresh_token := some "rt", expires_at := none, scope := none,
        workspace_id := none, workspace_name := none, bot_id := none,
        raw := none, created_at := some 1, updated_at := some 1 } :=
  getSelf_single_refresh_then_retry _ _ _ _ _ 7 _ rfl (by decide) rfl (by decide)
    (by decide) rfl (by decide)

/-- The C9 property: with a (truthy) static credential override `tok`
configured, credential resolution is independent of the store's
contents and yields `(tok, null record)`; no invocation refreshes or
writes; and a failing upstream response — 401 included — is thrown
immediately after a single upstream call. -/
def staticBypassProp (cfg : NotionConfig) (subject : Option String)
    (upstream : String → UpstreamResult) (exch : ExchangeResult) (now : Nat)
    (tok : String) : Prop :=
  (∀ store store', getAccessToken cfg store subject = getAccessToken cfg store' subject) ∧
  (∀ store, getAccessToken cfg store subject = .ok (tok, none)) ∧
  (∀ store, (getSelfHandler cfg store subject upstream exch now).refreshCalls = 0 ∧
    (getSelfHandler cfg store subject upstream exch now).persisted = 0 ∧
    (getSelfHandler cfg store subject upstream exch now).store = store) ∧
  (∀ store, (upstream tok).ok = false → (upstream tok).status = 401 →
    (getSelfHandler cfg store subject upstream exch now).output =
      .error { message := "getSelf failed: " ++ (upstream tok).json } ∧
    (getSelfHandler cfg store subject upstream exch now).upstreamCalls = 1)

/-- C9: when a static credential override is configured, every tool
invocation uses it directly with a null stored record, the credential
store is never consulted (the outcome is the same for every store
state), and a 401 from the upstream never triggers a refresh — the
handler throws the upstream error immediately. -/
theorem staticToken_bypasses_store_and_refresh
    (cfg : NotionConfig) (subject : Option String)
    (upstream : String → UpstreamResult) (exch : ExchangeResult) (now : Nat)
    (tok : String) (hstatic : cfg.staticToken = some tok) (htok : tok ≠ "") :
    staticBypassProp cfg subject upstream exch now tok := by
  have htruthy : truthyOpt cfg.staticToken = true := by
    rw [hstatic]
    simpa [truthyOpt] using htok
  have hacc : ∀ store : TokenMap, getAccessToken cfg store subject = .ok (tok, none) := by
    intro store
    unfold getAccessToken
    rw [htruthy, hstatic]
    simp
  have hrun : ∀ store : TokenMap, getSelfHandler cfg store subject upstream exch now =
      getSelfFinish store (upstream tok) := by
    intro store
    unfold getSelfHandler
    rw [hacc store]
  refine ⟨fun store store' => by rw [hacc store, hacc store'], hacc, ?_, ?_⟩
  · intro store
    rw [hrun store]
    unfold getSelfFinish
    cases h : (upstream tok).ok <;> simp [h]
  · intro store hfail _
    rw [hrun store]
    unfold getSelfFinish
    rw [hfail]
    exact ⟨rfl, rfl⟩

/-- Witness for C9: static token `stat` configured, upstream rejecting
every token with 401, over a nonempty store that is provably ignored. -/
theorem staticToken_bypasses_store_and_refresh_witness :
    staticBypassProp
      { clientId := "id", clientSecret := "sec", redirectUri := "uri",
        staticToken := some "stat", usePkce := false }
      (some "ws1")
      (fun _ => { ok := false, status := 401, json := "unauthorized" })
      { ok := true, status := 200,
        json := { access_token := "a1", refresh_token := none, scope := none,
                  workspace_id := none, workspace_name := none, bot_id := none } }
      3 "stat" :=
  staticToken_bypasses_store_and_refresh _ _ _ _ 3 _ rfl (by decide)

/-- Result of one `GET /oauth/notion/callback` request (part_000 lines
193-231): the HTTP response status and body, the store and the
state→verifier map afterwards, and whether a credential record was
written. -/
structure CallbackResult where
  status : Nat
  body : String
  store : TokenMap
  pkceMap : List (String × String)
  wrote : Bool
deriving DecidableEq, Repr

/-- The callback route handler (part_000 lines 193-231). `code` and
`state` are the query parameters coerced with `|| ""`. The token
exchange is abstracted into its settled result `exchange` (the looked-up
verifier, or the Basic client-secret header, only shape the request that
produced it). Control flow preserved from the source: a missing code
returns 400 *before* the try/finally, so the verifier entry survives;
every path that enters the try evicts the (nonempty) state key in the
finally; in PKCE mode a state with no recorded verifier returns 400
inside the try; a failed exchange throws, caught as a 500; on success
the record is built from the response JSON (subject
`workspace_id || "default"`, scope through JS `||`) and upserted. The
`JSON.stringify` tails of the bodies are elided. -/
def oauthCallback (cfg : NotionConfig) (pkceMap : List (String × String))
    (store : TokenMap) (code state : String) (exchange : ExchangeResult)
    (now : Nat) : CallbackResult :=
  if code = "" then
    { status := 400, body := "Missing code", store := store,
      pkceMap := pkceMap, wrote := false }
  else
    let cleaned := if state = "" then pkceMap else eraseKey pkceMap state
    let afterExchange : CallbackResult :=
      if exchange.ok then
        let json := exchange.json
        let subject := if truthyOpt json.workspace_id
          then json.workspace_id.getD "" else "default"
        let record : TokenRecord :=
          { provider := "notion", subject := subject,
            access_token := json.access_token,
            refresh_token := json.refresh_token,
            expires_at := none,
            scope := if truthyOpt json.scope then json.scope else none,
            workspace_id := json.workspace_id,
            workspace_name := json.workspace_name,
            bot_id := json.bot_id,
            raw := some json, created_at := none, updated_at := none }
        { status := 200, body := "✅ Notion authorized. You can close this tab.",
          store := upsertToken store record now, pkceMap := cleaned, wrote := true }
      else
        { status := 500,
          body := "❌ Notion OAuth failed: Notion token exchange failed (" ++
            toString exchange.status ++ ")",
          store := store, pkceMap := cleaned, wrote := false }
    if cfg.usePkce then
      match lookupKey pkceMap state with
      | none =>
        { status := 400, body := "Missing PKCE verifier for state",
          store := store, pkceMap := cleaned, wrote := false }
      | some _ => afterExchange
    else afterExchange

/-- C2 counterexample: in client-secret (non-PKCE) mode the callback
never validates `state`. With the state missing (`""`), a code present
and a succeeding exchange, a credential record IS written and a 200
success page produced — against the claim that a missing state yields
no write and an error. -/
theorem oauthCallback_missing_state_writes_cex :
    (oauthCallback
      { clientId := "id", clientSecret := "sec", redirectUri := "uri",
        staticToken := none, usePkce := false }
      [] [] "codeX" ""
      { ok := true, status := 200,
        json := { access_token := "at", refresh_token := none, scope := none,
                  workspace_id := some "wsA", workspace_name := none,
                  bot_id := none } }
      5).wrote = true ∧
    (oauthCallback
      { clientId := "id", clientSecret := "sec", redirectUri := "uri",
        staticToken := none, usePkce := false }
      [] [] "codeX" ""
      { ok := true, status := 200,
        json := { access_token := "at", refresh_token := none, scope := none,
                  workspace_id := some "wsA", workspace_name := none,
                  bot_id := none } }
      5).status = 200 ∧
    (getToken (oauthCallback
      { clientId := "id", clientSecret := "sec", redirectUri := "uri",
        staticToken := none, usePkce := false }
      [] [] "codeX" ""
      { ok := true, status := 200,
        json := { access_token := "at", refresh_token := none, scope := none,
                  workspace_id := some "wsA", workspace_name := none,
                  bot_id := none } }
      5).store "notion" "wsA").isSome = true := by
  decide

/-- C2 (amended): a missing code yields a 400 and no write; in
proof-key mode an unknown (or missing) state yields a 400 and no
write; a failing exchange yields an error (400 in the proof-key
missing-verifier case, else 500) and no write. In client-secret mode
the state parameter is not validated, so a missing/unknown state alone
does not prevent a write (see the counterexample). -/
theorem oauthCallback_error_paths_no_write
    (cfg : NotionConfig) (pkceMap : List (String × String)) (store : TokenMap)
    (code state : String) (exch : ExchangeResult) (now : Nat) :
    (code = "" →
      oauthCallback cfg pkceMap store code state exch now =
        { status := 400, body := "Missing code", store := store,
          pkceMap := pkceMap, wrote := false }) ∧
    (code ≠ "" → cfg.usePkce = true → lookupKey pkceMap state = none →
      (oauthCallback cfg pkceMap store code state exch now).wrote = false ∧
      (oauthCallback cfg pkceMap store code state exch now).status = 400 ∧
      (oauthCallback cfg pkceMap store code state exch now).store = store) ∧
    (code ≠ "" → exch.ok = false →
      (oauthCallback cfg pkceMap store code state exch now).wrote = false ∧
      (oauthCallback cfg pkceMap store code state exch now).store = store ∧
      ((oauthCallback cfg pkceMap store code state exch now).status = 400 ∨
       (oauthCallback cfg pkceMap store code state exch now).status = 500)) := by
  refine ⟨?_, ?_, ?_⟩
  · intro hcode
    unfold oauthCallback
    rw [if_pos hcode]
  · intro hcode hpkce hlk
    unfold oauthCallback
    rw [if_neg hcode, hpkce]
    simp [hlk]
  · intro hcode hexch
    unfold oauthCallback
    rw [if_neg hcode]
    cases hpk : cfg.usePkce
    · simp [hexch]
    · cases hlk : lookupKey pkceMap state
      · simp [hlk]
      · simp [hlk, hexch]

/-- Witness for the amended C2: a missing code, and a failing exchange
with a code present, each against a concrete configuration. -/
theorem oauthCallback_error_paths_no_write_witness :
    (oauthCallback
        { clientId := "id", clientSecret := "sec", redirectUri := "uri",
          staticToken := none, usePkce := false }
        [] [] "" "st"
        { ok := false, status := 400,
          json := { access_token := "", refresh_token := none, scope := none,
                    workspace_id := none, workspace_name := none, bot_id := none } }
        1 =
      { status := 400, body := "Missing code", store := [],
        pkceMap := [], wrote := false }) ∧
    ((oauthCallback
        { clientId := "id", clientSecret := "sec", redirectUri := "uri",
          staticToken := none, usePkce := false }
        [] [] "c" "st"
        { ok := false, status := 400,
          json := { access_token := "", refresh_token := none, scope := none,
                    workspace_id := none, workspace_name := none, bot_id := none } }
        1).wrote = false ∧
     (oauthCallback
        { clientId := "id", clientSecret := "sec", redirectUri := "uri",
          staticToken := none, usePkce := false }
        [] [] "c" "st"
        { ok := false, status := 400,
          json := { access_token := "", refresh_token := none, scope := none,
                    workspace_id := none, workspace_name := none, bot_id := none } }
        1).store = [] ∧
     ((oauthCallback
        { clientId := "id", clientSecret := "sec", redirectUri := "uri",
          staticToken := none, usePkce := false }
        [] [] "c" "st"
        { ok := false, status := 400,
          json := { access_token := "", refresh_token := none, scope := none,
                    workspace_id := none, workspace_name := none, bot_id := none } }
        1).status = 400 ∨
      (oauthCallback
        { clientId := "id", clientSecret := "sec", redirectUri := "uri",
          staticToken := none, usePkce := false }
        [] [] "c" "st"
        { ok := false, status := 400,
          json := { access_token := "", refresh_token := none, scope := none,
                    workspace_id := none, workspace_name := none, bot_id := none } }
        1).status = 500)) :=
  ⟨(oauthCallback_error_paths_no_write _ [] [] "" "st" _ 1).1 rfl,
   (oauthCallback_error_paths_no_write _ [] [] "c" "st" _ 1).2.2 (by decide) rfl⟩

theorem lookupKey_eq_none_of_not_mem {α : Type} (m : List (String × α)) (key : String)
    (h : key ∉ m.map Prod.fst) : lookupKey m key = none := by
  induction m with
  | nil => rfl
  | cons hd tl ih =>
    obtain ⟨k, v⟩ := hd
    simp only [List.map_cons, List.mem_cons, not_or] at h
    show (if k = key then some v else lookupKey tl key) = none
    rw [if_neg (fun hk => h.1 hk.symm)]
    exact ih h.2

theorem lookupKey_eraseKey_self {α : Type} (m : List (String × α)) (key : String)
    (hnodup : (m.map Prod.fst).Nodup) :
    lookupKey (eraseKey m key) key = none := by
  induction m with
  | nil => rfl
  | cons hd tl ih =>
    obtain ⟨k, v⟩ := hd
    simp only [List.map_cons, List.nodup_cons] at hnodup
    by_cases h : k = key
    · subst h
      show lookupKey (if k = k then tl else (k, v) :: eraseKey tl k) k = none
      rw [if_pos rfl]
      exact lookupKey_eq_none_of_not_mem tl k hnodup.1
    · show lookupKey (if k = key then tl else (k, v) :: eraseKey tl key) key = none
      rw [if_neg h]
      show (if k = key then some v else lookupKey (eraseKey tl key) key) = none
      rw [if_neg h]
      exact ih hnodup.2

theorem oauthCallback_pkceMap_after (cfg : NotionConfig)
    (pkceMap : List (String × String)) (store : TokenMap)
    (code state : String) (exch : ExchangeResult) (now : Nat) (hcode : code ≠ "") :
    (oauthCallback cfg pkceMap store code state exch now).pkceMap =
      if state = "" then pkceMap else eraseKey pkceMap state := by
  unfold oauthCallback
  rw [if_neg hcode]
  cases hpk : cfg.usePkce
  · cases hex : exch.ok <;> simp [hex]
  · cases hlk : lookupKey pkceMap state
    · simp [hlk]
    · cases hex : exch.ok <;> simp [hlk, hex]

theorem oauthCallback_unknown_state_fails (cfg : NotionConfig)
    (pkceMap : List (String × String)) (store : TokenMap)
    (code state : String) (exch : ExchangeResult) (now : Nat)
    (hpkce : cfg.usePkce = true) (hlk : lookupKey pkceMap state = none) :
    (oauthCallback cfg pkceMap store code state exch now).wrote = false ∧
    (oauthCallback cfg pkceMap store code state exch now).status = 400 ∧
    (oauthCallback cfg pkceMap store code state exch now).store = store := by
  unfold oauthCallback
  by_cases hcode : code = ""
  · rw [if_pos hcode]
    exact ⟨rfl, rfl, rfl⟩
  · rw [if_neg hcode, hpkce]
    simp [hlk]

/-- C7 counterexample: a callback rejected for a missing code returns
*before* the try/finally (part_000 line 196), so the state's verifier
entry is NOT deleted — and a second callback presenting the very same
state then succeeds and writes a credential, against the claim that
every completed callback evicts the entry and that a repeated state
fails. -/
theorem oauthCallback_verifier_survives_missing_code_cex :
    (oauthCallback
      { clientId := "id", clientSecret := "sec", redirectUri := "uri",
        staticToken := none, usePkce := true }
      [("s1", "v1")] [] "" "s1"
      { ok := true, status := 200,
        json := { access_token := "at", refresh_token := none, scope := none,
                  workspace_id := some "wsA", workspace_name := none,
                  bot_id := none } }
      0).status = 400 ∧
    (oauthCallback
      { clientId := "id", clientSecret := "sec", redirectUri := "uri",
        staticToken := none, usePkce := true }
      [("s1", "v1")] [] "" "s1"
      { ok := true, status := 200,
        json := { access_token := "at", refresh_token := none, scope := none,
                  workspace_id := some "wsA", workspace_name := none,
                  bot_id := none } }
      0).pkceMap = [("s1", "v1")] ∧
    (oauthCallback
      { clientId := "id", clientSecret := "sec", redirectUri := "uri",
        staticToken := none, usePkce := true }
      ((oauthCallback
        { clientId := "id", clientSecret := "sec", redirectUri := "uri",
          staticToken := none, usePkce := true }
        [("s1", "v1")] [] "" "s1"
        { ok := true, status := 200,
          json := { access_token := "at", refresh_token := none, scope := none,
                    workspace_id := some "wsA", workspace_name := none,
                    bot_id := none } }
        0).pkceMap) [] "c2" "s1"
      { ok := true, status := 200,
        json := { access_token := "at", refresh_token := none, scope := none,
                  workspace_id := some "wsA", workspace_name := none,
                  bot_id := none } }
      0).wrote = true := by
  decide

/-- The C7 property (amended): in proof-key mode, (1) a callback
presenting a state with no recorded verifier fails with 400 and writes
nothing, whatever the code and exchange; (2) after a callback that
passes the missing-code check completes, the nonempty state's verifier
entry is gone from the map; (3) hence a second callback presenting the
same state fails with 400 and writes nothing. A callback rejected for
a missing code leaves the entry in place (see the counterexample). -/
def pkceSingleUseProp (cfg : NotionConfig) (pkceMap : List (String × String))
    (store : TokenMap) (code state : String) (exch : ExchangeResult)
    (now : Nat) : Prop :=
  (∀ (store0 : TokenMap) (code0 : String) (exch0 : ExchangeResult) (now0 : Nat),
    lookupKey pkceMap state = none →
    (oauthCallback cfg pkceMap store0 code0 state exch0 now0).wrote = false ∧
    (oauthCallback cfg pkceMap store0 code0 state exch0 now0).status = 400 ∧
    (oauthCallback cfg pkceMap store0 code0 state exch0 now0).store = store0) ∧
  ((pkceMap.map Prod.fst).Nodup → code ≠ "" → state ≠ "" →
    lookupKey (oauthCallback cfg pkceMap store code state exch now).pkceMap state = none) ∧
  ((pkceMap.map Prod.fst).Nodup → code ≠ "" → state ≠ "" →
    ∀ (store2 : TokenMap) (code2 : String) (exch2 : ExchangeResult) (now2 : Nat),
    (oauthCallback cfg
        (oauthCallback cfg pkceMap store code state exch now).pkceMap
        store2 code2 state exch2 now2).wrote = false ∧
    (oauthCallback cfg
        (oauthCallback cfg pkceMap store code state exch now).pkceMap
        store2 code2 state exch2 now2).status = 400 ∧
    (oauthCallback cfg
        (oauthCallback cfg pkceMap store code state exch now).pkceMap
        store2 code2 state exch2 now2).store = store2)

/-- C7 (amended): proof-key state integrity as the code implements it. -/
theorem oauthCallback_pkce_state_single_use (cfg : NotionConfig)
    (pkceMap : List (String × String)) (store : TokenMap)
    (code state : String) (exch : ExchangeResult) (now : Nat)
    (hpkce : cfg.usePkce = true) :
    pkceSingleUseProp cfg pkceMap store code state exch now := by
  have hdel : (pkceMap.map Prod.fst).Nodup → code ≠ "" → state ≠ "" →
      lookupKey (oauthCallback cfg pkceMap store code state exch now).pkceMap state =
        none := by
    intro hnodup hcode hstate
    rw [oauthCallback_pkceMap_after cfg pkceMap store code state exch now hcode,
      if_neg hstate]
    exact lookupKey_eraseKey_self pkceMap state hnodup
  refine ⟨?_, hdel, ?_⟩
  · intro store0 code0 exch0 now0 hlk
    exact oauthCallback_unknown_state_fails cfg pkceMap store0 code0 state exch0 now0
      hpkce hlk
  · intro hnodup hcode hstate store2 code2 exch2 now2
    exact oauthCallback_unknown_state_fails cfg _ store2 code2 state exch2 now2
      hpkce (hdel hnodup hcode hstate)

/-- Witness for the amended C7: a recorded verifier for state `s1` is
consumed by a complete callback, after which a replay of `s1` fails. -/
theorem oauthCallback_pkce_state_single_use_witness :
    pkceSingleUseProp
      { clientId := "id", clientSecret := "sec", redirectUri := "uri",
        staticToken := none, usePkce := true }
      [("s1", "v1")] [] "c1" "s1"
      { ok := true, status := 200,
        json := { access_token := "at", refresh_token := none, scope := none,
                  workspace_id := some "wsA", workspace_name := none,
                  bot_id := none } }
      4 :=
  oauthCallback_pkce_state_single_use _ _ _ _ _ _ 4 rfl
